import Mathlib

set_option maxRecDepth 40000

/-!
Verification of the SurveyGizmo REST client (surveygizmo/surveygizmo.py)
against its natural-language specification.

The embedding models the Python module shallowly:
- `Config` is `_Config` (line 17): the recognized options, each credential an
  `Option String` (`none` for Python `None`).  The opaque `requests_kwargs`
  bag is only forwarded to the transport and is not modelled.
- Python truthiness of an optional string (`not self.username`) is `pyFalsy`.
- A Python dict of strings is an insertion-ordered association list `Params`;
  `dict.update` / key assignment is `dictSet` / `dictUpdate` (overwrite in
  place, else append).
- `validate` is `_Config.validate` (lines 32-52), returning
  `Except ImproperlyConfigured Unit` instead of raising.
- `add_filter` (line 107) and `prepare` (line 159) act on an explicit
  `APIState` (the `_filters` list and the shared `_Config`); `prepare`
  returns the mutated state, the mutated params dict and the url or the
  raised error (`PrepOutcome`).
- `hashlib.md5(...).hexdigest()` is implemented in full (`md5HexStr`), over
  the byte encoding of the password string.
- `execute` (line 189) takes the HTTP transport as a stub
  `String → Params → Response`; `Response` is the collaborator contract of
  the spec: a status, a `.text` accessor and a `.json()` accessor.
- attribute lookup on the `_API` object, with its `__getattr__` fallback
  (line 79), is `getattrLookup`, fuelled because the fallback can recurse;
  the `_wrap` wrapper (line 86) is `wrapperCall`.
-/

/-- Python truthiness test `not x` for an optional string: `None` and the
empty string are falsy. -/
def pyFalsy : Option String → Bool
  | none => true
  | some s => s == ""

/-- Python `"%s" % x` for an optional string: `None` formats as "None". -/
def pyStr : Option String → String
  | none => "None"
  | some s => s

/-- A Python `dict` of strings as an insertion-ordered association list. -/
abbrev Params := List (String × String)

/-- Keys of a dict, in order. -/
def keysOf (p : Params) : List String := p.map Prod.fst

/-- Python `d[k] = v`: overwrite in place when the key is present, else
append at the end (insertion order preserved). -/
def dictSet (p : Params) (k v : String) : Params :=
  if p.any (fun kv => kv.1 == k) then
    p.map (fun kv => if kv.1 == k then (k, v) else kv)
  else p ++ [(k, v)]

/-- Python `d.get(k)`: the stored value, if any. -/
def dictGet (p : Params) (k : String) : Option String :=
  (p.find? (fun kv => kv.1 == k)).map Prod.snd

/-- Python `d.update(q)`: set every pair of `q` in `d`, in order. -/
def dictUpdate (p : Params) (q : Params) : Params :=
  q.foldl (fun acc kv => dictSet acc kv.1 kv.2) p

/-- `_Config` (surveygizmo.py line 17): the recognized configuration options.
`requests_kwargs`, an opaque bag forwarded to the transport, is not
modelled. -/
structure Config where
  api_version : String
  auth_method : Option String
  username : Option String
  password : Option String
  md5_hash : Option String
  consumer_key : Option String
  consumer_secret : Option String
  access_token : Option String
  access_token_secret : Option String
  response_type : Option String
deriving Repr, DecidableEq

/-- The `ImproperlyConfigured` exception (line 12), carrying its message. -/
structure ImproperlyConfigured where
  msg : String
deriving Repr, DecidableEq

/-- `_Config.validate` (lines 32-52).  The `if/elif` chain over
`auth_method` runs first and may raise; the `response_type` membership
check runs after it. -/
def validate (c : Config) : Except ImproperlyConfigured Unit :=
  match (
    if !(c.auth_method == some "user:pass" || c.auth_method == some "user:md5"
        || c.auth_method == some "oauth") then
      Except.error ⟨"No authentication method provided."⟩
    else
      if c.auth_method == some "user:pass" then
        if pyFalsy c.username || pyFalsy c.password then
          Except.error ⟨"Username and password for 'user:pass' authentication."⟩
        else Except.ok ()
      else if c.auth_method == some "user:md5" then
        if pyFalsy c.username then
          Except.error ⟨"Username required for 'user:md5' authentication."⟩
        else if pyFalsy c.password && pyFalsy c.md5_hash then
          Except.error ⟨"Password or md5 hash of password required for 'user:md5' authentication."⟩
        else Except.ok ()
      else if c.auth_method == some "oauth" then
        if pyFalsy c.consumer_key || pyFalsy c.consumer_secret
            || pyFalsy c.access_token || pyFalsy c.access_token_secret then
          Except.error ⟨"OAuth consumer key and secret, and OAuth access token and secret required for 'oauth' authentication."⟩
        else Except.ok ()
      else Except.ok ()
  ) with
  | Except.error e => Except.error e
  | Except.ok _ =>
    if !(c.response_type == none || c.response_type == some "json"
        || c.response_type == some "pson" || c.response_type == some "xml"
        || c.response_type == some "debug") then
      Except.error ⟨""⟩
    else Except.ok ()

/-- The failure conditions exactly as the claim lists them (spec 4.1): the
claim-side definition for the `validate` iff. -/
def specInvalid (c : Config) : Bool :=
  !(c.auth_method == some "user:pass" || c.auth_method == some "user:md5"
      || c.auth_method == some "oauth")
  || (c.auth_method == some "user:pass" && (pyFalsy c.username || pyFalsy c.password))
  || (c.auth_method == some "user:md5"
      && (pyFalsy c.username || (pyFalsy c.password && pyFalsy c.md5_hash)))
  || (c.auth_method == some "oauth"
      && (pyFalsy c.consumer_key || pyFalsy c.consumer_secret
          || pyFalsy c.access_token || pyFalsy c.access_token_secret))
  || !(c.response_type == none || c.response_type == some "json"
      || c.response_type == some "pson" || c.response_type == some "xml"
      || c.response_type == some "debug")

/-- Left-rotation of a 32-bit word. -/
def rotl32 (x s : Nat) : Nat := ((x <<< s) ||| (x >>> (32 - s))) % 4294967296

/-- The 64 MD5 sine-table constants. -/
def md5K : List Nat :=
  [0xd76aa478, 0xe8c7b756, 0x242070db, 0xc1bdceee,
   0xf57c0faf, 0x4787c62a, 0xa8304613, 0xfd469501,
   0x698098d8, 0x8b44f7af, 0xffff5bb1, 0x895cd7be,
   0x6b901122, 0xfd987193, 0xa679438e, 0x49b40821,
   0xf61e2562, 0xc040b340, 0x265e5a51, 0xe9b6c7aa,
   0xd62f105d, 0x02441453, 0xd8a1e681, 0xe7d3fbc8,
   0x21e1cde6, 0xc33707d6, 0xf4d50d87, 0x455a14ed,
   0xa9e3e905, 0xfcefa3f8, 0x676f02d9, 0x8d2a4c8a,
   0xfffa3942, 0x8771f681, 0x6d9d6122, 0xfde5380c,
   0xa4beea44, 0x4bdecfa9, 0xf6bb4b60, 0xbebfbc70,
   0x289b7ec6, 0xeaa127fa, 0xd4ef3085, 0x04881d05,
   0xd9d4d039, 0xe6db99e5, 0x1fa27cf8, 0xc4ac5665,
   0xf4292244, 0x432aff97, 0xab9423a7, 0xfc93a039,
   0x655b59c3, 0x8f0ccc92, 0xffeff47d, 0x85845dd1,
   0x6fa87e4f, 0xfe2ce6e0, 0xa3014314, 0x4e0811a1,
   0xf7537e82, 0xbd3af235, 0x2ad7d2bb, 0xeb86d391]

/-- The 64 MD5 per-round left-rotation amounts. -/
def md5S : List Nat :=
  [7, 12, 17, 22, 7, 12, 17, 22, 7, 12, 17, 22, 7, 12, 17, 22,
   5, 9, 14, 20, 5, 9, 14, 20, 5, 9, 14, 20, 5, 9, 14, 20,
   4, 11, 16, 23, 4, 11, 16, 23, 4, 11, 16, 23, 4, 11, 16, 23,
   6, 10, 15, 21, 6, 10, 15, 21, 6, 10, 15, 21, 6, 10, 15, 21]

/-- The MD5 round mixing function for round `i` on registers B, C, D. -/
def md5F (i B C D : Nat) : Nat :=
  if i < 16 then (B &&& C) ||| ((B ^^^ 4294967295) &&& D)
  else if i < 32 then (D &&& B) ||| ((D ^^^ 4294967295) &&& C)
  else if i < 48 then B ^^^ C ^^^ D
  else C ^^^ (B ||| (D ^^^ 4294967295))

/-- The MD5 message-word index for round `i`. -/
def md5G (i : Nat) : Nat :=
  if i < 16 then i
  else if i < 32 then (5 * i + 1) % 16
  else if i < 48 then (3 * i + 5) % 16
  else (7 * i) % 16

/-- One MD5 round: `M` is the chunk's message-word schedule. -/
def md5Round (M : Nat → Nat) (st : Nat × Nat × Nat × Nat) (i : Nat) :
    Nat × Nat × Nat × Nat :=
  let F := (md5F i st.2.1 st.2.2.1 st.2.2.2 + st.1 + md5K.getD i 0 + M (md5G i)) % 4294967296
  (st.2.2.2, (st.2.1 + rotl32 F (md5S.getD i 0)) % 4294967296, st.2.1, st.2.2.1)

/-- Message word `g` of a 64-byte chunk, little endian. -/
def leWord (chunk : List Nat) (g : Nat) : Nat :=
  chunk.getD (4 * g) 0 + chunk.getD (4 * g + 1) 0 * 256
    + chunk.getD (4 * g + 2) 0 * 65536 + chunk.getD (4 * g + 3) 0 * 16777216

/-- Process one 64-byte chunk: 64 rounds, then add into the running state. -/
def md5Chunk (st : Nat × Nat × Nat × Nat) (chunk : List Nat) : Nat × Nat × Nat × Nat :=
  let r := (List.range 64).foldl (md5Round (leWord chunk)) st
  ((st.1 + r.1) % 4294967296, (st.2.1 + r.2.1) % 4294967296,
   (st.2.2.1 + r.2.2.1) % 4294967296, (st.2.2.2 + r.2.2.2) % 4294967296)

/-- MD5 padding: a 1-bit (0x80 byte), zeros to 56 mod 64, then the bit
length as a 64-bit little-endian count. -/
def md5Pad (msg : List Nat) : List Nat :=
  let bitLen := (msg.length * 8) % 18446744073709551616
  let zeros := (119 - msg.length % 64) % 64
  msg ++ [128] ++ List.replicate zeros 0
    ++ (List.range 8).map (fun i => (bitLen >>> (8 * i)) % 256)

/-- Split a byte list into 64-byte chunks; the fuel bounds the number of
chunks and is structural (so that the kernel can evaluate the digest). -/
def chunks64F : Nat → List Nat → List (List Nat)
  | 0, _ => []
  | _, [] => []
  | fuel + 1, a :: rest => ((a :: rest).take 64) :: chunks64F fuel ((a :: rest).drop 64)

/-- Split a byte list into 64-byte chunks. -/
def chunks64 (l : List Nat) : List (List Nat) := chunks64F l.length l

/-- The MD5 initial register values. -/
def md5Init : Nat × Nat × Nat × Nat := (0x67452301, 0xefcdab89, 0x98badcfe, 0x10325476)

/-- A 32-bit word as four bytes, little endian. -/
def wordLE (w : Nat) : List Nat :=
  [w % 256, (w >>> 8) % 256, (w >>> 16) % 256, (w >>> 24) % 256]

/-- The 16-byte MD5 digest of a byte string. -/
def md5Digest (msg : List Nat) : List Nat :=
  let r := (chunks64 (md5Pad msg)).foldl md5Chunk md5Init
  wordLE r.1 ++ wordLE r.2.1 ++ wordLE r.2.2.1 ++ wordLE r.2.2.2

/-- Two lowercase hex digits of a byte. -/
def byteHex (b : Nat) : List Char := [Nat.digitChar (b / 16), Nat.digitChar (b % 16)]

/-- `hashlib.md5(msg).hexdigest()`: the digest as 32 lowercase hex digits. -/
def md5Hex (msg : List Nat) : String := ⟨(md5Digest msg).flatMap byteHex⟩

/-- UTF-8 encoding of one character. -/
def charUtf8 (c : Char) : List Nat :=
  let n := c.toNat
  if n < 128 then [n]
  else if n < 2048 then [192 + n / 64, 128 + n % 64]
  else if n < 65536 then [224 + n / 4096, 128 + (n / 64) % 64, 128 + n % 64]
  else [240 + n / 262144, 128 + (n / 4096) % 64, 128 + (n / 64) % 64, 128 + n % 64]

/-- The bytes of a string (UTF-8; ASCII passwords are their ASCII bytes). -/
def strBytes (s : String) : List Nat := s.data.flatMap charUtf8

/-- `hashlib.md5(s).hexdigest()` on a string. -/
def md5HexStr (s : String) : String := md5Hex (strBytes s)

/-- Decimal digit characters of `n` (Python `"%d" % n`), most significant
first; the structural fuel (any amount above `n` suffices) keeps the
definition kernel-evaluable. -/
def decDigitsF : Nat → Nat → List Char
  | 0, _ => []
  | fuel + 1, n =>
    if n < 10 then [Nat.digitChar n]
    else decDigitsF fuel (n / 10) ++ [Nat.digitChar (n % 10)]

/-- Python `"%d" % n`. -/
def natDec (n : Nat) : String := ⟨decDigitsF (n + 1) n⟩

/-- The key `'filter[field][%d]' % i` (line 154). -/
def keyField (i : Nat) : String := "filter[field][" ++ natDec i ++ "]"

/-- The key `'filter[operator][%d]' % i` (line 155). -/
def keyOperator (i : Nat) : String := "filter[operator][" ++ natDec i ++ "]"

/-- The key `'filter[value][%d]' % i` (line 156). -/
def keyValue (i : Nat) : String := "filter[value][" ++ natDec i ++ "]"

/-- The dict `add_filter` appends for filter number `i`: the triad of keys
carrying the given field, operator and value (Python `str(...)` of a string
is the string itself, so the three components are taken as strings). -/
def filterEntry (i : Nat) (t : String × String × String) : Params :=
  [(keyField i, t.1), (keyOperator i, t.2.1), (keyValue i, t.2.2)]

/-- `_API.add_filter` (lines 107-157) acting on the `_filters` list: append
one dict of the triad, keyed by the next index `len(self._filters)`. -/
def add_filter (filters : List Params) (field operator value : String) : List Params :=
  filters ++ [filterEntry filters.length (field, operator, value)]

/-- `add_filter` called once per triple of `l`, in order. -/
def addFilters (filters : List Params) (l : List (String × String × String)) : List Params :=
  l.foldl (fun fs t => add_filter fs t.1 t.2.1 t.2.2) filters

/-- The dispatcher state `prepare` reads and mutates: the shared `_Config`
and the accumulated `_filters` (the memoized oauth `_session` and the
`_resources` map play no part in `prepare`). -/
structure APIState where
  config : Config
  filters : List Params
deriving Repr, DecidableEq

/-- What one `prepare` call leaves behind: the dispatcher state and the
caller's params dict (both mutated in place in Python), and the url it
returns or the `ImproperlyConfigured` it raises. -/
structure PrepOutcome where
  state : APIState
  params : Params
  result : Except ImproperlyConfigured String
deriving Repr

/-- `_API.base_url` (line 56). -/
def base_url : String := "https://restapi.surveygizmo.com/"

/-- `_API.prepare` (lines 159-187), step for step: validate (its failure
propagates before anything is touched); merge every accumulated filter into
`params`; clear the filters unless `keep`; for `user:pass` set the param
keyed by the auth-method string to `"username:password"`; for `user:md5`
memoize `md5_hash` onto the config when absent and set the param to
`"username:md5hash"`; build the url from `base_url` and `tail`. -/
def prepare (st : APIState) (tail : String) (params : Params) (keep : Bool) : PrepOutcome :=
  match validate st.config with
  | Except.error e => { state := st, params := params, result := Except.error e }
  | Except.ok _ =>
    let params := st.filters.foldl dictUpdate params
    let filters := if keep then st.filters else []
    let config := st.config
    if config.auth_method == some "user:pass" then
      let params := dictSet params (pyStr config.auth_method)
          (pyStr config.username ++ ":" ++ pyStr config.password)
      { state := { config := config, filters := filters }, params := params,
        result := Except.ok (base_url ++ tail) }
    else if config.auth_method == some "user:md5" then
      let config := if pyFalsy config.md5_hash then
          { config with md5_hash := some (md5HexStr (pyStr config.password)) }
        else config
      let params := dictSet params (pyStr config.auth_method)
          (pyStr config.username ++ ":" ++ pyStr config.md5_hash)
      { state := { config := config, filters := filters }, params := params,
        result := Except.ok (base_url ++ tail) }
    else
      { state := { config := config, filters := filters }, params := params,
        result := Except.ok (base_url ++ tail) }

/-- What a Python attribute access on the `_API` object ends in. -/
inductive AttrResult where
  | found
  | attrError (name : String)
  | recursionError
deriving Repr, DecidableEq

/-- The attributes an `_API` object actually has: the instance attributes
set in `__init__` (lines 58-63) and the class attributes (line 56 and the
methods).  `_modules`, `_sg` and `_api_version` are never among them:
nothing in the class ever assigns them. -/
def apiAttrs : List String :=
  ["_config", "_resources", "_filters", "_session",
   "base_url", "_import_api", "_wrap", "add_filter", "prepare", "execute"]

/-- Python attribute lookup on an `_API` object: a present attribute is
found; otherwise `__getattr__(name)` (lines 79-84) runs, whose body first
dereferences `self._modules` - itself an absent attribute, so the lookup
recurses.  The fuel is the interpreter's recursion budget: each
`__getattr__` frame consumes one unit, and exhaustion is Python's
`RecursionError`.  The `found` arm of the inner lookup models the
`raise AttributeError(name)` fall-through for a name `_modules` holds no
entry for; it is dead code here, since `_modules` is never assigned. -/
def getattrLookup : Nat → String → AttrResult
  | fuel, name =>
    if name ∈ apiAttrs then AttrResult.found
    else
      match fuel with
      | 0 => AttrResult.recursionError
      | fuel + 1 =>
        match getattrLookup fuel "_modules" with
        | AttrResult.found => AttrResult.attrError name
        | r => r

/-- What a call to a `_wrap`-wrapped resource callable ends in. -/
inductive WrapOutcome where
  | fetched (url : String) (params : Params)
  | wouldExecute (url : String) (params : Params)
  | configError (e : ImproperlyConfigured)
  | attrError (name : String)
  | recursionError
deriving Repr

/-- The `_wrap` wrapper (lines 86-105) called on a resource callable that
returned `funcResult = (tail, params)`.  The reserved keyword arguments
`keep` and `url_fetch` are popped before the callable runs, so it never
sees them.  The wrapper then evaluates `self._sg.config.response_type`
(line 96): `_sg` is not an attribute of `_API`, so this is a
`getattrLookup`, and its failure propagates.  The `found` arms carry the
intended continuation (suffix the response type onto the tail, prefix the
api version - line 99 reads the equally absent `_api_version` - then
`prepare`, and either return the prepared pair on `url_fetch` or go on to
`execute`); they are dead code, reachable only if the absent attributes
existed. -/
def wrapperCall (fuel : Nat) (st : APIState) (funcResult : String × Params)
    (keep url_fetch : Bool) : WrapOutcome :=
  let tail := funcResult.1
  let params := funcResult.2
  match getattrLookup fuel "_sg" with
  | AttrResult.attrError n => WrapOutcome.attrError n
  | AttrResult.recursionError => WrapOutcome.recursionError
  | AttrResult.found =>
    let tail := if pyFalsy st.config.response_type then tail
      else tail ++ "." ++ pyStr st.config.response_type
    match getattrLookup fuel "_api_version" with
    | AttrResult.attrError n => WrapOutcome.attrError n
    | AttrResult.recursionError => WrapOutcome.recursionError
    | AttrResult.found =>
      let tail := st.config.api_version ++ "/" ++ tail
      let r := prepare st tail params keep
      match r.result with
      | Except.error e => WrapOutcome.configError e
      | Except.ok url =>
        if url_fetch then WrapOutcome.fetched url r.params
        else WrapOutcome.wouldExecute url r.params

/-- A JSON value, as the transport's `.json()` decode accessor returns it. -/
inductive JsonVal where
  | null
  | bool (b : Bool)
  | num (n : Int)
  | str (s : String)
  | arr (l : List JsonVal)
  | obj (l : List (String × JsonVal))

/-- The transport collaborator's response object (spec section 6): a status
usable to detect failure, a `.text` accessor, and a `.json()` decode
accessor. -/
structure Response where
  status : Nat
  text : String
  json : JsonVal

/-- `requests` `raise_for_status` (line 206): an HTTPError carrying the
status and the response body, raised for every 4xx or 5xx status. -/
structure TransportError where
  status : Nat
  body : String
deriving Repr, DecidableEq

/-- What `execute` returns: the JSON-decoded structure, or the raw text. -/
inductive ExecResult where
  | jsonVal (v : JsonVal)
  | textVal (t : String)

/-- `_API.execute` (lines 189-211) with the transport stubbed: `get` stands
for the GET of the oauth-signed session (auth_method oauth) or of the plain
transport (lines 195-204) - either way it yields a response object.  Then
`raise_for_status`, and the body decode: JSON when `response_type` is
unset, raw text otherwise. -/
def execute (cfg : Config) (get : String → Params → Response)
    (url : String) (params : Params) : Except TransportError ExecResult :=
  let response := get url params
  if 400 ≤ response.status ∧ response.status < 600 then
    Except.error { status := response.status, body := response.text }
  else
    if pyFalsy cfg.response_type then Except.ok (ExecResult.jsonVal response.json)
    else Except.ok (ExecResult.textVal response.text)

def md5TestState : APIState :=
  ⟨⟨"head", some "user:md5", some "bob", some "secret", none, none, none, none, none, none⟩, []⟩

def keepTestState : APIState :=
  ⟨⟨"head", some "oauth", none, none, none, some "ck", some "cs", some "tok", some "toksec",
    none⟩, [filterEntry 0 ("istestdata", "==", "1")]⟩

def upTestState : APIState :=
  ⟨⟨"head", some "user:pass", some "jane", some "pw1", none, none, none, none, none, none⟩,
   []⟩

def atomTestState : APIState :=
  ⟨⟨"head", none, none, none, none, none, none, none, none, none⟩,
   [filterEntry 0 ("status", "==", "Complete")]⟩

/-- The transport stub of the spec's C6 example: status 200, JSON body. -/
def jsonStubResponse : Response :=
  ⟨200, "\x7b\"result\":1\x7d", JsonVal.obj [("result", JsonVal.num 1)]⟩

/-- A transport stub answering 500. -/
def errStubResponse : Response := ⟨500, "Internal Server Error", JsonVal.null⟩

/-- The filter dicts built from index `i` on, one per triple, in order. -/
def filtersFrom : Nat → List (String × String × String) → List Params
  | _, [] => []
  | i, t :: l => filterEntry i t :: filtersFrom (i + 1) l

theorem dictGet_dictSet_self (p : Params) (k v : String) :
    dictGet (dictSet p k v) k = some v := by
  induction p with
  | nil => simp [dictGet, dictSet]
  | cons kv rest ih =>
    by_cases h : kv.1 = k
    · simp [dictGet, dictSet, h]
    · by_cases h2 : rest.any (fun x => x.1 == k)
      · simp [dictGet, dictSet, h, h2] at ih ⊢
        exact ih
      · simp [dictGet, dictSet, h, h2] at ih ⊢
        exact ih

theorem md5Hex_ne_empty (msg : List Nat) : md5Hex msg ≠ "" := by
  intro h
  have h2 := congrArg String.data h
  simp [md5Hex, md5Digest, wordLE, byteHex] at h2

theorem pyFalsy_md5Hex (s : String) : pyFalsy (some (md5HexStr s)) = false := by
  have := md5Hex_ne_empty (strBytes s)
  simp [pyFalsy, md5HexStr] at this ⊢
  exact this

theorem validate_ok_userpass (c : Config) (hauth : c.auth_method = some "user:pass")
    (hval : validate c = Except.ok ()) :
    pyFalsy c.username = false ∧ pyFalsy c.password = false := by
  cases hu : pyFalsy c.username <;> cases hp : pyFalsy c.password <;>
    simp [validate, hauth, hu, hp] at hval ⊢

theorem validate_ok_md5 (c : Config) (hauth : c.auth_method = some "user:md5")
    (hval : validate c = Except.ok ()) :
    pyFalsy c.username = false ∧ (pyFalsy c.password && pyFalsy c.md5_hash) = false := by
  cases hu : pyFalsy c.username <;> cases hp : pyFalsy c.password <;>
    cases hm : pyFalsy c.md5_hash <;>
    simp [validate, hauth, hu, hp, hm] at hval ⊢

theorem validate_ok_response (c : Config) (hval : validate c = Except.ok ()) :
    (c.response_type == none || c.response_type == some "json"
      || c.response_type == some "pson" || c.response_type == some "xml"
      || c.response_type == some "debug") = true := by
  cases hr : (c.response_type == none || c.response_type == some "json"
      || c.response_type == some "pson" || c.response_type == some "xml"
      || c.response_type == some "debug")
  · exfalso
    unfold validate at hval
    split at hval
    · exact Except.noConfusion hval
    · simp [hr] at hval
  · rfl

theorem md5_secret_counterexample :
    (prepare md5TestState "survey" [] false).state.config.md5_hash
        = some "5ebe2294ecd0e0f08eab7690d2a6ee69" ∧
      (prepare md5TestState "survey" [] false).state.config.md5_hash
        ≠ some "5ebe2294ecd0e0f08eaf25572d5d12dd" := by
  constructor
  · decide
  · decide

theorem prepare_md5_memoization (st : APIState) (tail : String) (params : Params)
    (tail2 : String) (params2 : Params) (keep2 : Bool)
    (hauth : st.config.auth_method = some "user:md5")
    (hno : pyFalsy st.config.md5_hash = true)
    (hval : validate st.config = Except.ok ()) :
    ∃ p, st.config.password = some p ∧
      (prepare st tail params false).state.config.md5_hash = some (md5HexStr p) ∧
      (prepare (prepare st tail params false).state tail2 params2 keep2).state.config
        = (prepare st tail params false).state.config ∧
      dictGet (prepare (prepare st tail params false).state tail2 params2 keep2).params
          "user:md5"
        = some (pyStr st.config.username ++ ":" ++ md5HexStr p) ∧
      md5HexStr "secret" = "5ebe2294ecd0e0f08eab7690d2a6ee69" := by
  obtain ⟨⟨av, am, un, pw, mh, ck, cs, atk, ats, rt⟩, fs⟩ := st
  simp only at hauth hno hval ⊢
  subst hauth
  obtain ⟨hu, hpm⟩ := validate_ok_md5 _ rfl hval
  simp only at hu hpm
  have hr := validate_ok_response _ hval
  simp only at hr
  have hp : pyFalsy pw = false := by
    cases hpc : pyFalsy pw
    · rfl
    · rw [hpc, hno] at hpm
      simp at hpm
  cases hpw : pw with
  | none => rw [hpw] at hp; simp [pyFalsy] at hp
  | some p =>
    subst hpw
    have h1 : prepare ⟨⟨av, some "user:md5", un, some p, mh, ck, cs, atk, ats, rt⟩, fs⟩
        tail params false
        = { state := { config := ⟨av, some "user:md5", un, some p, some (md5HexStr p),
              ck, cs, atk, ats, rt⟩, filters := [] },
            params := dictSet (fs.foldl dictUpdate params) "user:md5"
              (pyStr un ++ ":" ++ md5HexStr p),
            result := Except.ok (base_url ++ tail) } := by
      simp [prepare, hval, hno, pyStr]
    have hval1 : validate ⟨av, some "user:md5", un, some p, some (md5HexStr p),
        ck, cs, atk, ats, rt⟩ = Except.ok () := by
      unfold validate
      simp [hu, pyFalsy_md5Hex, hr]
    refine ⟨p, rfl, ?_, ?_, ?_, by decide⟩
    · rw [h1]
    · rw [h1]
      simp [prepare, hval1, pyFalsy_md5Hex, pyStr]
    · rw [h1]
      simp [prepare, hval1, pyFalsy_md5Hex, pyStr, dictGet_dictSet_self]

theorem prepare_md5_memoization_witness :
    ∃ p, md5TestState.config.password = some p ∧
      (prepare md5TestState "survey/list" [] false).state.config.md5_hash
        = some (md5HexStr p) ∧
      (prepare (prepare md5TestState "survey/list" [] false).state "survey/list" []
            true).state.config
        = (prepare md5TestState "survey/list" [] false).state.config ∧
      dictGet (prepare (prepare md5TestState "survey/list" [] false).state "survey/list" []
            true).params "user:md5"
        = some (pyStr md5TestState.config.username ++ ":" ++ md5HexStr p) ∧
      md5HexStr "secret" = "5ebe2294ecd0e0f08eab7690d2a6ee69" :=
  prepare_md5_memoization md5TestState "survey/list" [] "survey/list" [] true rfl rfl rfl

/-- C3: with `keep=False`, `prepare` clears the accumulated filters; with
`keep=True`, it leaves them unchanged for the next call. -/
theorem prepare_keep_semantics (st : APIState) (tail : String) (params : Params)
    (hval : validate st.config = Except.ok ()) :
    (prepare st tail params false).state.filters = [] ∧
    (prepare st tail params true).state.filters = st.filters := by
  unfold prepare
  rw [hval]
  cases h1 : (st.config.auth_method == some "user:pass") <;>
    cases h2 : (st.config.auth_method == some "user:md5") <;>
    simp [h1, h2]

theorem prepare_keep_semantics_witness :
    (prepare keepTestState "t" [] false).state.filters = [] ∧
    (prepare keepTestState "t" [] true).state.filters = keepTestState.filters :=
  prepare_keep_semantics keepTestState "t" [] rfl

/-- C8: for a valid `user:pass` configuration, `prepare` adds the single
param keyed by the auth-method name with value "username:password" and
returns the base url concatenated with the tail. -/
theorem prepare_userpass (st : APIState) (tail : String) (params : Params) (keep : Bool)
    (hauth : st.config.auth_method = some "user:pass")
    (hval : validate st.config = Except.ok ()) :
    ∃ u p, st.config.username = some u ∧ st.config.password = some p ∧
      (prepare st tail params keep).result = Except.ok (base_url ++ tail) ∧
      (prepare st tail params keep).params
        = dictSet (st.filters.foldl dictUpdate params) "user:pass" (u ++ ":" ++ p) ∧
      dictGet (prepare st tail params keep).params "user:pass" = some (u ++ ":" ++ p) := by
  obtain ⟨hu, hp⟩ := validate_ok_userpass st.config hauth hval
  cases husr : st.config.username with
  | none => rw [husr] at hu; simp [pyFalsy] at hu
  | some u =>
    cases hpw : st.config.password with
    | none => rw [hpw] at hp; simp [pyFalsy] at hp
    | some p =>
      refine ⟨u, p, rfl, rfl, ?_, ?_, ?_⟩ <;>
        simp [prepare, hval, hauth, husr, hpw, pyStr, dictGet_dictSet_self]

theorem prepare_userpass_witness :
    ∃ u p, upTestState.config.username = some u ∧ upTestState.config.password = some p ∧
      (prepare upTestState "survey" [] false).result = Except.ok (base_url ++ "survey") ∧
      (prepare upTestState "survey" [] false).params
        = dictSet (upTestState.filters.foldl dictUpdate []) "user:pass" (u ++ ":" ++ p) ∧
      dictGet (prepare upTestState "survey" [] false).params "user:pass"
        = some (u ++ ":" ++ p) :=
  prepare_userpass upTestState "survey" [] false rfl rfl

/-- C10: when `validate` fails, `prepare` raises that error and leaves the
filter list, the config and the caller's params untouched: validation runs
before any merging or clearing. -/
theorem prepare_validate_atomic (st : APIState) (tail : String) (params : Params)
    (keep : Bool) (e : ImproperlyConfigured)
    (herr : validate st.config = Except.error e) :
    prepare st tail params keep = ⟨st, params, Except.error e⟩ := by
  unfold prepare
  rw [herr]

theorem prepare_validate_atomic_witness :
    prepare atomTestState "t" [("page", "1")] true
      = ⟨atomTestState, [("page", "1")],
          Except.error ⟨"No authentication method provided."⟩⟩ :=
  prepare_validate_atomic atomTestState "t" [("page", "1")] true
    ⟨"No authentication method provided."⟩ rfl

theorem getattrLookup_absent (fuel : Nat) (name : String) (h : name ∉ apiAttrs) :
    getattrLookup fuel name = AttrResult.recursionError := by
  induction fuel generalizing name with
  | zero => simp [getattrLookup, h]
  | succ fuel ih =>
    have hm : "_modules" ∉ apiAttrs := by decide
    simp [getattrLookup, h, ih "_modules" hm]

/-- C9: looking up an undefined resource name on the `_API` object never
produces the AttributeError the spec promises: `__getattr__` dereferences
the never-assigned `_modules`, recursing until the interpreter's budget is
exhausted (RecursionError), whatever that budget is. -/
theorem getattr_no_attrerror (fuel : Nat) (name : String) (h : name ∉ apiAttrs) :
    getattrLookup fuel name = AttrResult.recursionError ∧
    getattrLookup fuel name ≠ AttrResult.attrError name := by
  have h2 := getattrLookup_absent fuel name h
  exact ⟨h2, by simp [h2]⟩

theorem getattr_no_attrerror_witness :
    getattrLookup 1000 "survey" = AttrResult.recursionError ∧
    getattrLookup 1000 "survey" ≠ AttrResult.attrError "survey" :=
  getattr_no_attrerror 1000 "survey" (by decide)

/-- C5: every call through the `_wrap` wrapper ends in RecursionError - the
wrapper reads `self._sg` (line 96), an attribute `_API` objects never have,
and the `__getattr__` fallback recurses - so no call ever returns the
prepared (url, params) pair, with or without `url_fetch`. -/
theorem wrapper_recursion_crash (fuel : Nat) (st : APIState)
    (funcResult : String × Params) (keep url_fetch : Bool) :
    wrapperCall fuel st funcResult keep url_fetch = WrapOutcome.recursionError := by
  have h : "_sg" ∉ apiAttrs := by decide
  simp [wrapperCall, getattrLookup_absent fuel "_sg" h]

/-- C6: on a successful response, `execute` returns the JSON-decoded body
when `response_type` is unset, and the raw text when it is set to any of
the four wire formats. -/
theorem execute_decode (cfg : Config) (get : String → Params → Response)
    (url : String) (params : Params)
    (hok : (get url params).status < 400) :
    (cfg.response_type = none →
      execute cfg get url params = Except.ok (ExecResult.jsonVal (get url params).json)) ∧
    (∀ v, cfg.response_type = some v → v ∈ ["json", "pson", "xml", "debug"] →
      execute cfg get url params = Except.ok (ExecResult.textVal (get url params).text)) := by
  have hn : ¬(400 ≤ (get url params).status ∧ (get url params).status < 600) := by omega
  constructor
  · intro h
    simp [execute, hn, h, pyFalsy]
  · intro v hv hmem
    simp at hmem
    rcases hmem with h1 | h1 | h1 | h1 <;> subst h1 <;> simp [execute, hn, hv, pyFalsy]

theorem execute_decode_witness :
    (execute ⟨"head", some "user:pass", some "u", some "p", none, none, none, none, none,
          none⟩ (fun _ _ => jsonStubResponse) "u1" []
       = Except.ok (ExecResult.jsonVal (JsonVal.obj [("result", JsonVal.num 1)]))) ∧
    (execute ⟨"head", some "user:pass", some "u", some "p", none, none, none, none, none,
          some "xml"⟩ (fun _ _ => jsonStubResponse) "u1" []
       = Except.ok (ExecResult.textVal "\x7b\"result\":1\x7d")) :=
  ⟨(execute_decode _ (fun _ _ => jsonStubResponse) "u1" [] (by decide)).1 rfl,
   (execute_decode _ (fun _ _ => jsonStubResponse) "u1" [] (by decide)).2 "xml" rfl
     (by decide)⟩

/-- C7: a 4xx or 5xx response makes `execute` fail with the transport's
error, carrying the status and the body; no result is returned. -/
theorem execute_http_error (cfg : Config) (get : String → Params → Response)
    (url : String) (params : Params)
    (h1 : 400 ≤ (get url params).status) (h2 : (get url params).status < 600) :
    execute cfg get url params
      = Except.error ⟨(get url params).status, (get url params).text⟩ := by
  simp only [execute]
  rw [if_pos ⟨h1, h2⟩]

theorem execute_http_error_witness :
    execute ⟨"head", some "user:pass", some "u", some "p", none, none, none, none, none,
        none⟩ (fun _ _ => errStubResponse) "u1" []
      = Except.error ⟨500, "Internal Server Error"⟩ :=
  execute_http_error _ (fun _ _ => errStubResponse) "u1" [] (by decide) (by decide)

theorem digitChar_inj_lt (a b : Nat) (ha : a < 10) (hb : b < 10)
    (h : Nat.digitChar a = Nat.digitChar b) : a = b := by
  interval_cases a <;> interval_cases b <;> revert h <;> decide

theorem decDigitsF_ne_nil (fuel n : Nat) (h : 0 < fuel) : decDigitsF fuel n ≠ [] := by
  cases fuel with
  | zero => omega
  | succ f =>
    by_cases h10 : n < 10 <;> simp [decDigitsF, h10]

theorem decDigitsF_stable (n : Nat) : ∀ fuel, n < fuel → decDigitsF fuel n = decDigitsF (n + 1) n := by
  induction n using Nat.strong_induction_on with
  | _ n ih =>
    intro fuel hf
    cases fuel with
    | zero => omega
    | succ f =>
      by_cases h10 : n < 10
      · simp [decDigitsF, h10]
      · have hdiv : n / 10 < n := Nat.div_lt_self (by omega) (by omega)
        have h1 : n / 10 < f := by omega
        have e1 : decDigitsF (f + 1) n = decDigitsF f (n / 10) ++ [Nat.digitChar (n % 10)] := by
          simp [decDigitsF, h10]
        have e2 : decDigitsF (n + 1) n = decDigitsF n (n / 10) ++ [Nat.digitChar (n % 10)] := by
          simp [decDigitsF, h10]
        rw [e1, e2, ih (n / 10) hdiv f h1, ih (n / 10) hdiv n hdiv]

theorem decDigits_lt (n : Nat) (h : n < 10) : decDigitsF (n + 1) n = [Nat.digitChar n] := by
  simp [decDigitsF, h]

theorem decDigits_ge (n : Nat) (h : ¬ n < 10) :
    decDigitsF (n + 1) n = decDigitsF (n / 10 + 1) (n / 10) ++ [Nat.digitChar (n % 10)] := by
  have hdiv : n / 10 < n := Nat.div_lt_self (by omega) (by omega)
  show (if n < 10 then [Nat.digitChar n]
      else decDigitsF n (n / 10) ++ [Nat.digitChar (n % 10)]) = _
  rw [if_neg h, decDigitsF_stable (n / 10) n hdiv]

theorem decDigits_inj (m : Nat) : ∀ n : Nat, decDigitsF (m + 1) m = decDigitsF (n + 1) n → m = n := by
  induction m using Nat.strong_induction_on with
  | _ m ih =>
    intro n h
    by_cases hm : m < 10 <;> by_cases hn : n < 10
    · rw [decDigits_lt m hm, decDigits_lt n hn] at h
      simp at h
      exact digitChar_inj_lt m n hm hn h
    · rw [decDigits_lt m hm, decDigits_ge n hn] at h
      have hne := decDigitsF_ne_nil (n / 10 + 1) (n / 10) (by omega)
      cases hl : decDigitsF (n / 10 + 1) (n / 10) with
      | nil => exact absurd hl hne
      | cons c cs => rw [hl] at h; simp at h
    · rw [decDigits_ge m hm, decDigits_lt n hn] at h
      have hne := decDigitsF_ne_nil (m / 10 + 1) (m / 10) (by omega)
      cases hl : decDigitsF (m / 10 + 1) (m / 10) with
      | nil => exact absurd hl hne
      | cons c cs => rw [hl] at h; simp at h
    · rw [decDigits_ge m hm, decDigits_ge n hn] at h
      have h2 := congrArg List.reverse h
      simp at h2
      have hm10 := digitChar_inj_lt (m % 10) (n % 10)
        (Nat.mod_lt _ (by omega)) (Nat.mod_lt _ (by omega)) h2.1
      have htail : decDigitsF (m / 10 + 1) (m / 10) = decDigitsF (n / 10 + 1) (n / 10) := by
        have h3 := congrArg List.reverse h2.2
        simpa using h3
      have hdiv := ih (m / 10) (Nat.div_lt_self (by omega) (by omega)) (n / 10) htail
      omega

theorem natDec_inj (m n : Nat) (h : natDec m = natDec n) : m = n :=
  decDigits_inj m n (congrArg String.data h)

theorem keyField_inj (i j : Nat) (h : keyField i = keyField j) : i = j := by
  have hd : "filter[field][".data ++ ((natDec i).data ++ "]".data)
      = "filter[field][".data ++ ((natDec j).data ++ "]".data) := by
    simpa [keyField, String.data_append, List.append_assoc] using congrArg String.data h
  exact natDec_inj i j (String.ext (List.append_cancel_right (List.append_cancel_left hd)))

theorem keyOperator_inj (i j : Nat) (h : keyOperator i = keyOperator j) : i = j := by
  have hd : "filter[operator][".data ++ ((natDec i).data ++ "]".data)
      = "filter[operator][".data ++ ((natDec j).data ++ "]".data) := by
    simpa [keyOperator, String.data_append, List.append_assoc] using congrArg String.data h
  exact natDec_inj i j (String.ext (List.append_cancel_right (List.append_cancel_left hd)))

theorem keyValue_inj (i j : Nat) (h : keyValue i = keyValue j) : i = j := by
  have hd : "filter[value][".data ++ ((natDec i).data ++ "]".data)
      = "filter[value][".data ++ ((natDec j).data ++ "]".data) := by
    simpa [keyValue, String.data_append, List.append_assoc] using congrArg String.data h
  exact natDec_inj i j (String.ext (List.append_cancel_right (List.append_cancel_left hd)))

theorem keyField_ne_keyOperator (i j : Nat) : keyField i ≠ keyOperator j := by
  intro h
  have hd : "filter[field][".data ++ ((natDec i).data ++ "]".data)
      = "filter[operator][".data ++ ((natDec j).data ++ "]".data) := by
    simpa [keyField, keyOperator, String.data_append, List.append_assoc]
      using congrArg String.data h
  have h7 : ("filter[field][".data ++ ((natDec i).data ++ "]".data))[7]?
      = ("filter[operator][".data ++ ((natDec j).data ++ "]".data))[7]? := by rw [hd]
  rw [List.getElem?_append_left (by decide), List.getElem?_append_left (by decide)] at h7
  revert h7
  decide

theorem keyField_ne_keyValue (i j : Nat) : keyField i ≠ keyValue j := by
  intro h
  have hd : "filter[field][".data ++ ((natDec i).data ++ "]".data)
      = "filter[value][".data ++ ((natDec j).data ++ "]".data) := by
    simpa [keyField, keyValue, String.data_append, List.append_assoc]
      using congrArg String.data h
  have h7 : ("filter[field][".data ++ ((natDec i).data ++ "]".data))[7]?
      = ("filter[value][".data ++ ((natDec j).data ++ "]".data))[7]? := by rw [hd]
  rw [List.getElem?_append_left (by decide), List.getElem?_append_left (by decide)] at h7
  revert h7
  decide

theorem keyOperator_ne_keyValue (i j : Nat) : keyOperator i ≠ keyValue j := by
  intro h
  have hd : "filter[operator][".data ++ ((natDec i).data ++ "]".data)
      = "filter[value][".data ++ ((natDec j).data ++ "]".data) := by
    simpa [keyOperator, keyValue, String.data_append, List.append_assoc]
      using congrArg String.data h
  have h7 : ("filter[operator][".data ++ ((natDec i).data ++ "]".data))[7]?
      = ("filter[value][".data ++ ((natDec j).data ++ "]".data))[7]? := by rw [hd]
  rw [List.getElem?_append_left (by decide), List.getElem?_append_left (by decide)] at h7
  revert h7
  decide

theorem addFilters_eq (l : List (String × String × String)) :
    ∀ fs : List Params, addFilters fs l = fs ++ filtersFrom fs.length l := by
  induction l with
  | nil => intro fs; simp [addFilters, filtersFrom]
  | cons t l ih =>
    intro fs
    have h0 : addFilters fs (t :: l) = addFilters (add_filter fs t.1 t.2.1 t.2.2) l := rfl
    rw [h0, ih]
    simp [add_filter, filterEntry, filtersFrom]

theorem filtersFrom_length (l : List (String × String × String)) :
    ∀ i, (filtersFrom i l).length = l.length := by
  induction l with
  | nil => intro i; simp [filtersFrom]
  | cons t l ih => intro i; simp [filtersFrom, ih]

theorem filtersFrom_getElem? (l : List (String × String × String)) :
    ∀ i k, (h : k < l.length) →
      (filtersFrom i l)[k]? = some (filterEntry (i + k) (l.get ⟨k, h⟩)) := by
  induction l with
  | nil => intro i k h; simp at h
  | cons t l ih =>
    intro i k h
    cases k with
    | zero => simp [filtersFrom]
    | succ k =>
      have hk : k < l.length := by simpa using h
      simp only [filtersFrom, List.getElem?_cons_succ, List.get]
      rw [ih (i + 1) k hk]
      have : i + 1 + k = i + (k + 1) := by omega
      rw [this]

theorem dictSet_append (q : Params) (k v : String) (h : ∀ x ∈ q, x.1 ≠ k) :
    dictSet q k v = q ++ [(k, v)] := by
  have hany : q.any (fun kv => kv.1 == k) = false := by
    rw [List.any_eq_false]
    intro x hx
    simpa using h x hx
  simp [dictSet, hany]

theorem dictUpdate_filterEntry (p : Params) (i : Nat) (t : String × String × String)
    (hp : ∀ x ∈ p, x.1 ≠ keyField i ∧ x.1 ≠ keyOperator i ∧ x.1 ≠ keyValue i) :
    dictUpdate p (filterEntry i t) = p ++ filterEntry i t := by
  have h1 : ∀ x ∈ p, x.1 ≠ keyField i := fun x hx => (hp x hx).1
  have h2 : ∀ x ∈ p ++ [(keyField i, t.1)], x.1 ≠ keyOperator i := by
    intro x hx
    rcases List.mem_append.mp hx with hx | hx
    · exact (hp x hx).2.1
    · simp at hx
      rw [hx]
      exact keyField_ne_keyOperator i i
  have h3 : ∀ x ∈ (p ++ [(keyField i, t.1)]) ++ [(keyOperator i, t.2.1)], x.1 ≠ keyValue i := by
    intro x hx
    rcases List.mem_append.mp hx with hx | hx
    · rcases List.mem_append.mp hx with hx | hx
      · exact (hp x hx).2.2
      · simp at hx
        rw [hx]
        exact keyField_ne_keyValue i i
    · simp at hx
      rw [hx]
      exact keyOperator_ne_keyValue i i
  show dictSet (dictSet (dictSet p (keyField i) t.1) (keyOperator i) t.2.1) (keyValue i) t.2.2
      = p ++ filterEntry i t
  rw [dictSet_append p _ _ h1, dictSet_append _ _ _ h2, dictSet_append _ _ _ h3]
  simp [filterEntry]

theorem foldl_update_filtersFrom (l : List (String × String × String)) :
    ∀ (i0 : Nat) (p : Params),
      (∀ j, i0 ≤ j → ∀ x ∈ p, x.1 ≠ keyField j ∧ x.1 ≠ keyOperator j ∧ x.1 ≠ keyValue j) →
      (filtersFrom i0 l).foldl dictUpdate p = p ++ (filtersFrom i0 l).flatten := by
  induction l with
  | nil => intro i0 p hp; simp [filtersFrom]
  | cons t l ih =>
    intro i0 p hp
    have hstep : dictUpdate p (filterEntry i0 t) = p ++ filterEntry i0 t :=
      dictUpdate_filterEntry p i0 t (hp i0 (Nat.le_refl i0))
    have hp2 : ∀ j, i0 + 1 ≤ j → ∀ x ∈ p ++ filterEntry i0 t,
        x.1 ≠ keyField j ∧ x.1 ≠ keyOperator j ∧ x.1 ≠ keyValue j := by
      intro j hj x hx
      have hij : i0 ≠ j := by omega
      rcases List.mem_append.mp hx with hx | hx
      · exact hp j (by omega) x hx
      · simp [filterEntry] at hx
        rcases hx with rfl | rfl | rfl
        · exact ⟨fun hh => hij (keyField_inj i0 j hh), keyField_ne_keyOperator i0 j,
            keyField_ne_keyValue i0 j⟩
        · exact ⟨fun hh => keyField_ne_keyOperator j i0 hh.symm,
            fun hh => hij (keyOperator_inj i0 j hh), keyOperator_ne_keyValue i0 j⟩
        · exact ⟨fun hh => keyField_ne_keyValue j i0 hh.symm,
            fun hh => keyOperator_ne_keyValue j i0 hh.symm,
            fun hh => hij (keyValue_inj i0 j hh)⟩
    calc (filtersFrom i0 (t :: l)).foldl dictUpdate p
        = (filtersFrom (i0 + 1) l).foldl dictUpdate (dictUpdate p (filterEntry i0 t)) := rfl
      _ = (p ++ filterEntry i0 t) ++ (filtersFrom (i0 + 1) l).flatten := by
          rw [hstep, ih (i0 + 1) _ hp2]
      _ = p ++ (filtersFrom i0 (t :: l)).flatten := by
          simp [filtersFrom, List.append_assoc]

/-- C4: `add_filter` n times yields exactly n filter dicts, the k-th (zero
based) carrying the keys `filter[field][k]`, `filter[operator][k]`,
`filter[value][k]` with the given strings; and `prepare` merges them into
params exactly as stored - the indices are never renumbered (oauth config,
so the merged filters are the whole params dict). -/
theorem add_filter_indexing (l : List (String × String × String)) (cfg : Config)
    (tail : String) (keep : Bool)
    (hauth : cfg.auth_method = some "oauth")
    (hval : validate cfg = Except.ok ()) :
    (addFilters [] l).length = l.length ∧
    (∀ k, (h : k < l.length) →
      (addFilters [] l)[k]? = some (filterEntry k (l.get ⟨k, h⟩))) ∧
    (prepare ⟨cfg, addFilters [] l⟩ tail [] keep).params = (addFilters [] l).flatten := by
  have he : addFilters [] l = filtersFrom 0 l := by
    simpa using addFilters_eq l []
  refine ⟨?_, ?_, ?_⟩
  · rw [he, filtersFrom_length]
  · intro k h
    rw [he, filtersFrom_getElem? l 0 k h]
    simp
  · rw [he]
    have hmerge := foldl_update_filtersFrom l 0 []
      (by intro j hj x hx; simp at hx)
    simp [prepare, hval, hauth, hmerge]

theorem add_filter_indexing_witness :
    (addFilters [] [("istestdata", "==", "1"), ("status", "<>", "Deleted")]).length
        = [("istestdata", "==", "1"), ("status", "<>", "Deleted")].length ∧
    (∀ k, (h : k < [("istestdata", "==", "1"), ("status", "<>", "Deleted")].length) →
      (addFilters [] [("istestdata", "==", "1"), ("status", "<>", "Deleted")])[k]?
        = some (filterEntry k
            ([("istestdata", "==", "1"), ("status", "<>", "Deleted")].get ⟨k, h⟩))) ∧
    (prepare ⟨keepTestState.config,
        addFilters [] [("istestdata", "==", "1"), ("status", "<>", "Deleted")]⟩
        "survey" [] false).params
      = (addFilters [] [("istestdata", "==", "1"), ("status", "<>", "Deleted")]).flatten :=
  add_filter_indexing [("istestdata", "==", "1"), ("status", "<>", "Deleted")]
    keepTestState.config "survey" false rfl rfl

/-- C1: `validate()` raises `ImproperlyConfigured` if and only if one of the
claim's listed conditions holds (unrecognized auth method; missing
user:pass, user:md5 or oauth credentials; response_type set outside
json/pson/xml/debug/unset); every other configuration validates. -/
theorem validate_error_iff (c : Config) :
    (∃ e, validate c = Except.error e) ↔ specInvalid c = true := by
  rcases hauth : c.auth_method with _ | s
  · simp [validate, specInvalid, hauth]
  · by_cases h1 : s = "user:pass"
    · subst h1
      cases hu : pyFalsy c.username <;> cases hp : pyFalsy c.password <;>
        cases hr : (c.response_type == none || c.response_type == some "json"
          || c.response_type == some "pson" || c.response_type == some "xml"
          || c.response_type == some "debug") <;>
        simp [validate, specInvalid, hauth, hu, hp, hr]
    · by_cases h2 : s = "user:md5"
      · subst h2
        cases hu : pyFalsy c.username <;> cases hp : pyFalsy c.password <;>
          cases hm : pyFalsy c.md5_hash <;>
          cases hr : (c.response_type == none || c.response_type == some "json"
            || c.response_type == some "pson" || c.response_type == some "xml"
            || c.response_type == some "debug") <;>
          simp [validate, specInvalid, hauth, hu, hp, hm, hr]
      · by_cases h3 : s = "oauth"
        · subst h3
          cases hk1 : pyFalsy c.consumer_key <;> cases hk2 : pyFalsy c.consumer_secret <;>
            cases hk3 : pyFalsy c.access_token <;> cases hk4 : pyFalsy c.access_token_secret <;>
            cases hr : (c.response_type == none || c.response_type == some "json"
              || c.response_type == some "pson" || c.response_type == some "xml"
              || c.response_type == some "debug") <;>
            simp [validate, specInvalid, hauth, hk1, hk2, hk3, hk4, hr]
        · simp [validate, specInvalid, hauth, h1, h2, h3]
